import Mathlib

/-!
# Verification of the PyFlow (OpenCodeBlocks) graph-document core

A shallow embedding of the block / socket / edge data model of the
OpenCodeBlocks repository, of the Code-block `source` / `stdout`
property setters, of the streaming-output handler, of the
serialization round trip and of the notebook-conversion layer,
together with theorems settling the specification claims.

Python strings are modelled by Lean `String`; the Python string
operations used by the code (`split`, `join`, `startswith`, slicing,
`replace` of a single character by the empty string) are given
explicit structurally-recursive models over the character list so
that all definitions evaluate inside the kernel.
-/

namespace PyFlow

/-! ## Python string operation models -/

/-- Model of Python `text.split(sep)` for a one-character separator:
splitting an empty string yields `[""]`, and `n` occurrences of the
separator yield `n + 1` pieces. -/
def splitCharList (c : Char) : List Char → List (List Char)
  | [] => [[]]
  | x :: xs =>
    let r := splitCharList c xs
    if x = c then [] :: r
    else
      match r with
      | [] => [[x]]
      | y :: ys => (x :: y) :: ys

/-- Model of Python `value.split("\n")` on strings. -/
def pySplitLines (s : String) : List String :=
  (splitCharList '\n' s.data).map String.mk

/-- Model of Python `"\n".join(lines)`. -/
def pyJoinLines : List String → String
  | [] => ""
  | [x] => x
  | x :: xs => x ++ "\n" ++ pyJoinLines xs

/-- Model of Python `s.startswith(pre)`. -/
def pyStartswith (s pre : String) : Bool :=
  pre.data.isPrefixOf s.data

/-- Model of Python `s.replace(c, "")` for a one-character pattern:
every occurrence of the character is removed. -/
def stripChar (c : Char) (s : String) : String :=
  String.mk (s.data.filter (fun x => x ≠ c))

/-- Model of Python code-point slicing `s[n:]`. -/
def pyDrop (s : String) (n : Nat) : String :=
  String.mk (s.data.drop n)

/-- Model of Python `s.find(c) != -1` for a one-character needle. -/
def pyContainsChar (s : String) (c : Char) : Bool :=
  s.data.contains c

/-! ## Execution-flow graph model (`opencodeblocks/blocks/codeblock.py`)

The BFS-invalidation variant of `OCBCodeBlock` stores a `_source`
string and a `has_been_run` flag per block; the execution-flow edges
of the scene link an output `exe` socket of one block to the input
`exe` socket of another.  Following the arena re-architecture note of
the spec,
blocks are addressed by id and the traversal works on an adjacency
view of the execution-flow edge list. -/

/-- State of one Code block that is relevant to run-state
invalidation: its id, its `_source` and its `has_been_run` flag. -/
structure CodeBlock where
  id : Nat
  source : String
  has_been_run : Bool
deriving DecidableEq, Repr

/-- A document restricted to its Code blocks and its execution-flow
edges; an edge `(a, b)` runs from the output `exe` socket of block
`a` to the input `exe` socket of block `b`. -/
structure ExeGraph where
  blocks : List CodeBlock
  edges : List (Nat × Nat)
deriving DecidableEq, Repr

/-- Blocks that consume the execution flow leaving block `b`. -/
def successors (edges : List (Nat × Nat)) (b : Nat) : List Nat :=
  (edges.filter (fun e => e.1 == b)).map (fun e => e.2)

/-- Worklist loop of the breadth-first traversal: dequeue a block,
skip it when already visited, otherwise record it and enqueue its
execution-flow successors.  The fuel bounds the number of dequeues. -/
def bfsAux (edges : List (Nat × Nat)) : Nat → List Nat → List Nat → List Nat
  | 0, _, visited => visited
  | _ + 1, [], visited => visited
  | fuel + 1, b :: rest, visited =>
    if visited.contains b then bfsAux edges fuel rest visited
    else bfsAux edges fuel (rest ++ successors edges b) (visited ++ [b])

/-- Modelled from the spec: `OCBExecutableBlock.custom_bfs` (the
executable-block module is not part of the sources at hand, only its
caller is).  Breadth-first traversal of the execution-flow edge graph
starting at `start`, following edges toward consumers, visiting each
reachable block at most once; the start block is visited first.  Each
enqueue is either the start block or follows a distinct (edge, visit)
pair, so `edges.length + 1` dequeues exhaust the queue. -/
def custom_bfs (g : ExeGraph) (start : Nat) : List Nat :=
  bfsAux g.edges ((g.edges.length + 1) * (g.blocks.length + 1) + 1) [start] []

/-- Look a block up by id. -/
def findBlock (g : ExeGraph) (bid : Nat) : Option CodeBlock :=
  g.blocks.find? (fun b => b.id == bid)

/-- The `for block in output_blocks: block.has_been_run = False` loop
of the `source` setter, applied to one block. -/
def invalidate (reached : List Nat) (blk : CodeBlock) : CodeBlock :=
  if blk.id ∈ reached then { blk with has_been_run := false } else blk

/-- The `source` setter of the BFS-invalidation variant
(`opencodeblocks/blocks/codeblock.py`): when the new value differs
from the stored `_source`, reach all downstream blocks by a
breadth-first traversal over the execution-flow edges, clear their
`has_been_run` flags, then commit the new source and clear the flag
of the block itself; otherwise do nothing. -/
def set_source (g : ExeGraph) (bid : Nat) (value : String) : ExeGraph :=
  match findBlock g bid with
  | none => g
  | some b =>
    if value = b.source then g
    else
      let reached := custom_bfs g bid
      { g with
        blocks := g.blocks.map (fun blk =>
          let blk := invalidate reached blk
          if blk.id = bid then { blk with source := value, has_been_run := false }
          else blk) }

/-- The `source` setter of the simple single-file variant
(`opencodeblocks/graphics/blocks/codeblock.py`): store the value and
push it to the editor widget; no invalidation of any kind. -/
def set_source_simple (g : ExeGraph) (bid : Nat) (value : String) : ExeGraph :=
  { g with
    blocks := g.blocks.map (fun blk =>
      if blk.id = bid then { blk with source := value } else blk) }

/-! ### Basic BFS lemmas -/

theorem bfsAux_visited_subset (edges : List (Nat × Nat)) :
    ∀ (fuel : Nat) (queue visited : List Nat),
      visited ⊆ bfsAux edges fuel queue visited := by
  intro fuel
  induction fuel with
  | zero => intro queue visited; simp [bfsAux]
  | succ n ih =>
    intro queue visited
    cases queue with
    | nil => simp [bfsAux]
    | cons b rest =>
      simp only [bfsAux]
      by_cases hb : visited.contains b
      · simp only [hb, if_pos]
        exact ih rest visited
      · simp only [hb, if_neg, Bool.false_eq_true, not_false_iff]
        intro a ha
        exact ih (rest ++ successors edges b) (visited ++ [b])
          (List.mem_append_left _ ha)

theorem start_mem_custom_bfs (g : ExeGraph) (bid : Nat) :
    bid ∈ custom_bfs g bid := by
  unfold custom_bfs
  have h1 :
      bfsAux g.edges ((g.edges.length + 1) * (g.blocks.length + 1) + 1) [bid] []
        = bfsAux g.edges ((g.edges.length + 1) * (g.blocks.length + 1))
            ([] ++ successors g.edges bid) ([] ++ [bid]) := by
    simp [bfsAux]
  rw [h1]
  exact bfsAux_visited_subset g.edges _ _ _ (by simp)

/-! ## Streaming output and output classification
(`opencodeblocks/blocks/codeblock.py`)

`handle_stdout` buffers incoming output fragments in
`_cached_stdout`; the `stdout` setter stores the raw value and
classifies it for display: an `<img>`-prefixed value becomes an HTML
image tag over its base64 payload, a `<div>`-prefixed value is shown
verbatim, anything else goes through `str_to_html`.  The external
ANSI-to-HTML converter (`ansi2html`, an out-of-scope collaborator) is
abstracted as a function parameter `conv`. -/

/-- The streaming state of one Code block: the `_cached_stdout` line
buffer and the raw `_stdout` value last stored by the setter. -/
structure StreamState where
  cached_stdout : String
  stdout : String
deriving DecidableEq, Repr

/-- Model of `OCBCodeBlock.handle_stdout`: when the fragment holds a newline,
append every line but the last (with its terminating newline) to the
cached buffer and keep only the last line; then store the buffer plus
that trailing piece as the `stdout` of the block. -/
def handle_stdout (st : StreamState) (value : String) : StreamState :=
  let (cached, tail) :=
    if pyContainsChar value '\n' then
      let lines := pySplitLines value
      (st.cached_stdout ++ pyJoinLines lines.dropLast ++ "\n", lines.getLastD "")
    else (st.cached_stdout, value)
  { cached_stdout := cached, stdout := cached ++ tail }

/-- Model of `OCBCodeBlock.b64_to_html`: wrap a base64 payload in an HTML image
tag. -/
def b64_to_html (image : String) : String :=
  "<img src=\"data:image/png;base64," ++ image ++ "\">"

/-- Model of `OCBCodeBlock.str_to_html`: remove backspaces, then carriage
returns, convert ANSI escapes to HTML through the external converter
`conv`, and replace the black background color. -/
def str_to_html (conv : String → String) (text : String) : String :=
  let t := stripChar '\x08' text
  let t := stripChar '\r' t
  (conv t).replace "background-color: #000000" "background-color: transparent"

/-- The display classification of the `stdout` setter: `<img>` prefix
→ image tag over the remainder, `<div>` prefix → shown verbatim,
otherwise ANSI text converted by `str_to_html`. -/
def display_text (conv : String → String) (value : String) : String :=
  if pyStartswith value "<img>" then b64_to_html (pyDrop value 5)
  else if pyStartswith value "<div>" then value
  else str_to_html conv value

/-- Demonstration graph for the run-state witnesses: three blocks, one
execution-flow edge from block 0 to block 1, block 2 disconnected. -/
def demoGraph : ExeGraph :=
  { blocks := [⟨0, "", true⟩, ⟨1, "", true⟩, ⟨2, "", true⟩],
    edges := [(0, 1)] }

/-- C1: assigning a Code block a source different from its current one
clears `has_been_run` on the block itself (the traversal starts at it)
and on every block found by the breadth-first traversal of the
outgoing execution-flow edges, performed on the pre-mutation graph,
while every block the traversal does not reach is left entirely
unchanged. -/
theorem source_setter_invalidates_downstream
    (g : ExeGraph) (bid : Nat) (b : CodeBlock) (s : String)
    (hfind : findBlock g bid = some b) (hne : s ≠ b.source) :
    bid ∈ custom_bfs g bid ∧
    List.Forall₂ (fun old new =>
        (old.id ∈ custom_bfs g bid → new.has_been_run = false) ∧
        (old.id ∉ custom_bfs g bid → new = old))
      g.blocks (set_source g bid s).blocks := by
  refine ⟨start_mem_custom_bfs g bid, ?_⟩
  have hbfs := start_mem_custom_bfs g bid
  simp only [set_source, hfind, if_neg hne]
  rw [List.forall₂_map_right_iff]
  rw [List.forall₂_same]
  intro blk _hblk
  constructor
  · intro hmem
    simp only [invalidate, if_pos hmem]
    by_cases hb : blk.id = bid <;> simp [hb]
  · intro hmem
    have hne' : blk.id ≠ bid := fun h => hmem (h ▸ hbfs)
    simp only [invalidate, if_neg hmem, if_neg hne']

/-- Witness for C1 at a concrete graph: block 0 exists with source
`""`, the new source `"x"` differs, and the conclusion holds. -/
theorem source_setter_invalidates_downstream_witness :
    findBlock demoGraph 0 = some ⟨0, "", true⟩ ∧
    "x" ≠ (CodeBlock.mk 0 "" true).source ∧
    (0 ∈ custom_bfs demoGraph 0 ∧
      List.Forall₂ (fun old new =>
          (old.id ∈ custom_bfs demoGraph 0 → new.has_been_run = false) ∧
          (old.id ∉ custom_bfs demoGraph 0 → new = old))
        demoGraph.blocks (set_source demoGraph 0 "x").blocks) :=
  ⟨by decide, by decide,
    source_setter_invalidates_downstream demoGraph 0 ⟨0, "", true⟩ "x"
      (by decide) (by decide)⟩

/-- C10: assigning the `source` of a Code block its current value is
a complete no-op: the guard `value != self._source` fails, so no
traversal runs and the whole graph — the source and
`has_been_run` flag of every block — is returned unchanged. -/
theorem source_setter_same_value_noop
    (g : ExeGraph) (bid : Nat) (b : CodeBlock) (v : String)
    (hfind : findBlock g bid = some b) (heq : v = b.source) :
    set_source g bid v = g := by
  simp only [set_source, hfind, if_pos heq]

/-- Witness for C10: re-assigning the current source `""` of block 0 leaves
the demonstration graph unchanged. -/
theorem source_setter_same_value_noop_witness :
    findBlock demoGraph 0 = some ⟨0, "", true⟩ ∧
    "" = (CodeBlock.mk 0 "" true).source ∧
    set_source demoGraph 0 "" = demoGraph :=
  ⟨by decide, by decide,
    source_setter_same_value_noop demoGraph 0 ⟨0, "", true⟩ "" (by decide)
      (by decide)⟩

/-- C9: the two `OCBCodeBlock.source` setters are not behaviorally
equivalent: the simple single-file variant never changes the
`has_been_run` flag of any block, while on a one-block graph whose block has been
run, the BFS-invalidation variant clears the flag and the simple
variant keeps it. -/
theorem source_setter_variants_inequivalent :
    (∀ (g : ExeGraph) (bid : Nat) (v : String),
        (set_source_simple g bid v).blocks.map CodeBlock.has_been_run
          = g.blocks.map CodeBlock.has_been_run) ∧
    (set_source (ExeGraph.mk [⟨0, "", true⟩] []) 0 "x").blocks.map
        CodeBlock.has_been_run = [false] ∧
    (set_source_simple (ExeGraph.mk [⟨0, "", true⟩] []) 0 "x").blocks.map
        CodeBlock.has_been_run = [true] := by
  refine ⟨?_, by decide, by decide⟩
  intro g bid v
  simp only [set_source_simple, List.map_map]
  have h : (CodeBlock.has_been_run ∘ fun blk =>
      if blk.id = bid then { blk with source := v } else blk)
      = CodeBlock.has_been_run := by
    funext blk
    by_cases hb : blk.id = bid <;> simp [hb]
  rw [h]

/-! ## Graph document model and serialization

The Code-block half of `serialize` / `deserialize` is
`opencodeblocks/blocks/codeblock.py`; the base-block and scene halves
(socket and edge restoration, `complete_with_default`, the
`MalformedDocument` check) are not among the sources at hand and are
modelled from the spec (§4.1, §6, §7). -/

/-- Socket direction. -/
inductive SocketKind
  | input
  | output
deriving DecidableEq, Repr

/-- Socket flow type: data or execution flow. -/
inductive FlowKind
  | dataflow
  | exe
deriving DecidableEq, Repr

/-- A typed connection point on a block. -/
structure Socket where
  id : Nat
  socket_type : SocketKind
  flow_type : FlowKind
deriving DecidableEq, Repr

/-- Variant-specific payload of a block: Code blocks carry `source`
and `stdout`, Markdown blocks carry `text`. -/
inductive BlockPayload
  | code (source : String) (stdout : String)
  | markdown (text : String)
deriving DecidableEq, Repr

/-- A node of the graph document. -/
structure Block where
  id : Nat
  title : String
  sockets : List Socket
  payload : BlockPayload
deriving DecidableEq, Repr

/-- A directed connection between two sockets on two blocks, holding
non-owning references by id. -/
structure Edge where
  source_block : Nat
  source_socket : Nat
  dest_block : Nat
  dest_socket : Nat
deriving DecidableEq, Repr

/-- The full graph document: blocks plus ordered edges. -/
structure GraphDoc where
  blocks : List Block
  edges : List Edge
deriving DecidableEq, Repr

/-- Modelled from the spec: the block-type-name table
(`ipynb_conversion_constants.BLOCK_TYPE_TO_NAME`, not among the
sources at hand) maps the variant tags to their serialized names. -/
def BLOCK_TYPE_TO_NAME (payload : BlockPayload) : String :=
  match payload with
  | .code _ _ => "code"
  | .markdown _ => "markdown"

/-- One serialized block: the persisted form, with the
variant-specific fields optional as in the persisted document
format. -/
structure SerializedBlock where
  id : Nat
  block_type : String
  title : String
  sockets : List Socket
  source : Option String
  stdout : Option String
  text : Option String
deriving DecidableEq, Repr

/-- A serialized graph document. -/
structure SerializedDoc where
  blocks : List SerializedBlock
  edges : List Edge
deriving DecidableEq, Repr

/-- Errors raised during deserialization (spec §7). -/
inductive DeserializeError
  | MalformedDocument
  | UnknownBlockType
deriving DecidableEq, Repr

/-- Model of `OCBCodeBlock.serialize`: writes `source` and `stdout` on top of
the base-block fields; the Markdown branch (modelled from the spec)
writes `text`. -/
def serialize_block (b : Block) : SerializedBlock :=
  match b.payload with
  | .code src out =>
      { id := b.id, block_type := "code", title := b.title,
        sockets := b.sockets, source := some src, stdout := some out,
        text := none }
  | .markdown t =>
      { id := b.id, block_type := "markdown", title := b.title,
        sockets := b.sockets, source := none, stdout := none,
        text := some t }

/-- Serialize a graph document: all blocks with their
variant-specific fields, and all edges. -/
def serialize_doc (d : GraphDoc) : SerializedDoc :=
  { blocks := d.blocks.map serialize_block, edges := d.edges }

/-- Modelled from the spec: `OCBBlock.complete_with_default` (the
base-block module is not among the sources at hand).  Every optional
field missing from the input document is filled from the documented
per-variant default before the data is used: `source` defaults to
`""` for Code blocks (`DEFAULT_DATA` in `OCBCodeBlock.__init__`) and
`text` to `""` for Markdown blocks. -/
def complete_with_default (sb : SerializedBlock) : SerializedBlock :=
  if sb.block_type = "code" then
    { sb with source := some (sb.source.getD "") }
  else if sb.block_type = "markdown" then
    { sb with text := some (sb.text.getD "") }
  else sb

/-- Model of `OCBCodeBlock.deserialize` (code branch, with the base-block and
Markdown parts modelled from the spec): complete the data with the
per-variant defaults, then restore each field that is present; a
`stdout` left absent keeps the initial `""`.  An unrecognized variant
tag is the `UnknownBlockType` error, never coerced to a default
variant. -/
def deserialize_block (sb : SerializedBlock) :
    Except DeserializeError Block :=
  let sb := complete_with_default sb
  if sb.block_type = "code" then
    .ok { id := sb.id, title := sb.title, sockets := sb.sockets,
          payload := .code (sb.source.getD "") (sb.stdout.getD "") }
  else if sb.block_type = "markdown" then
    .ok { id := sb.id, title := sb.title, sockets := sb.sockets,
          payload := .markdown (sb.text.getD "") }
  else .error .UnknownBlockType

/-- Whether every id an edge references exists among the given
blocks. -/
def edgeValid (blocks : List Block) (e : Edge) : Bool :=
  blocks.any (fun b => b.id == e.source_block) &&
  blocks.any (fun b => b.id == e.dest_block) &&
  blocks.any (fun b => b.sockets.any (fun s => s.id == e.source_socket)) &&
  blocks.any (fun b => b.sockets.any (fun s => s.id == e.dest_socket))

/-- Restore a list of serialized blocks in order, stopping at the
first failing block. -/
def deserialize_blocks :
    List SerializedBlock → Except DeserializeError (List Block)
  | [] => .ok []
  | sb :: rest =>
    match deserialize_block sb, deserialize_blocks rest with
    | .ok b, .ok bs => .ok (b :: bs)
    | .error e, _ => .error e
    | .ok _, .error e => .error e

/-- Modelled from the spec: scene-level deserialization with
`restore_ids = true` (the scene module is not among the sources at
hand).  Restore every block, keeping the original ids, then restore
the edges; an edge referencing an id absent from the restored blocks
is the `MalformedDocument` error. -/
def deserialize_doc (sd : SerializedDoc) :
    Except DeserializeError GraphDoc :=
  match deserialize_blocks sd.blocks with
  | .error e => .error e
  | .ok blocks =>
    if sd.edges.all (edgeValid blocks) then
      .ok { blocks := blocks, edges := sd.edges }
    else
      .error .MalformedDocument

/-- A graph document is well formed when the four references of every
edge resolve (spec §3 invariant). -/
def WellFormed (d : GraphDoc) : Prop :=
  d.edges.all (edgeValid d.blocks) = true

instance (d : GraphDoc) : Decidable (WellFormed d) := by
  unfold WellFormed; infer_instance

/-! ### Output-classification and streaming theorems -/

theorem pyContainsChar_stripChar_self (c : Char) (s : String) :
    pyContainsChar (stripChar c s) c = false := by
  simp [pyContainsChar, stripChar, List.contains, List.elem_eq_mem,
    List.mem_filter]

theorem pyContainsChar_stripChar_other (c d : Char) (s : String)
    (h : pyContainsChar s d = false) :
    pyContainsChar (stripChar c s) d = false := by
  simp only [pyContainsChar, stripChar, List.contains, List.elem_eq_mem,
    decide_eq_false_iff_not, List.mem_filter] at *
  intro hmem
  exact h hmem.1

/-- C3: classification of a value assigned to the `stdout` of a Code block:
an `<img>`-prefixed value is rendered as an HTML image tag whose
source is the base64 data URI built from the remainder, a
`<div>`-prefixed value is rendered verbatim, and every other value is
rendered through `str_to_html`, the ANSI-to-markup conversion. -/
theorem stdout_display_classification (conv : String → String) (v : String) :
    (pyStartswith v "<img>" = true →
      display_text conv v
        = "<img src=\"data:image/png;base64," ++ pyDrop v 5 ++ "\">") ∧
    (pyStartswith v "<img>" = false → pyStartswith v "<div>" = true →
      display_text conv v = v) ∧
    (pyStartswith v "<img>" = false → pyStartswith v "<div>" = false →
      display_text conv v = str_to_html conv v) := by
  refine ⟨fun h1 => ?_, fun h1 h2 => ?_, fun h1 h2 => ?_⟩ <;>
    simp [display_text, b64_to_html, h1]
  · simp [h2]
  · simp [h2]

/-- Witness for C3: the value `"<img>AAAA"` is rendered as an image
reference, not as literal text. -/
theorem stdout_display_classification_witness :
    pyStartswith "<img>AAAA" "<img>" = true ∧
    display_text id "<img>AAAA"
      = "<img src=\"data:image/png;base64,AAAA\">" :=
  ⟨by decide, by
    have h := (stdout_display_classification id "<img>AAAA").1 (by decide)
    rw [h]; decide⟩

/-- C4 counterexample: streaming the fragment `"abc\ndef"` and then
the fragment `"gh"` through `handle_stdout` leaves the
`stdout` of the block equal to `"abc\ngh"`, not `"abc\ndefgh"`: the unterminated
partial line `"def"` is never added to the cached buffer, so the next
fragment replaces it instead of extending it. -/
theorem handle_stdout_drops_unterminated_line :
    (handle_stdout (handle_stdout ⟨"", ""⟩ "abc\ndef") "gh").stdout
        = "abc\ngh" ∧
    (handle_stdout (handle_stdout ⟨"", ""⟩ "abc\ndef") "gh").stdout
        ≠ "abc\ndefgh" := by
  constructor <;> decide

/-- C4 as amended: a fragment holding a newline appends all of its
complete lines (with the closing newline) to the cached buffer and
displays the buffer followed by its trailing partial line; a fragment
without a newline leaves the buffer untouched and displays the buffer
followed by the fragment, replacing the partial line shown before.
Hence `"abc\ndef"` followed by `"gh"` displays `"abc\ngh"`. -/
theorem handle_stdout_buffers_complete_lines :
    (∀ (st : StreamState) (v : String), pyContainsChar v '\n' = false →
      (handle_stdout st v).cached_stdout = st.cached_stdout ∧
      (handle_stdout st v).stdout = st.cached_stdout ++ v) ∧
    (∀ (st : StreamState) (v : String), pyContainsChar v '\n' = true →
      (handle_stdout st v).cached_stdout
          = st.cached_stdout ++ pyJoinLines (pySplitLines v).dropLast ++ "\n" ∧
      (handle_stdout st v).stdout
          = (handle_stdout st v).cached_stdout
              ++ (pySplitLines v).getLastD "") ∧
    (handle_stdout (handle_stdout ⟨"", ""⟩ "abc\ndef") "gh").stdout
        = "abc\ngh" := by
  refine ⟨fun st v h => ?_, fun st v h => ?_, by decide⟩
  · simp [handle_stdout, h]
  · simp [handle_stdout, h]

/-- Witness for C4 (amended): a newline-free fragment after a buffered
line extends only the displayed tail. -/
theorem handle_stdout_buffers_complete_lines_witness :
    pyContainsChar "gh" '\n' = false ∧
    (handle_stdout ⟨"abc\n", "abc\ndef"⟩ "gh").cached_stdout = "abc\n" ∧
    (handle_stdout ⟨"abc\n", "abc\ndef"⟩ "gh").stdout = "abc\n" ++ "gh" :=
  ⟨by decide,
    (handle_stdout_buffers_complete_lines.1 ⟨"abc\n", "abc\ndef"⟩ "gh"
      (by decide)).1,
    (handle_stdout_buffers_complete_lines.1 ⟨"abc\n", "abc\ndef"⟩ "gh"
      (by decide)).2⟩

/-- C5 counterexample: after streaming the fragment
`"a\x08b\rc\nd"`, both the cached buffer and the stored `stdout`
still hold the backspace and the carriage return — `handle_stdout`
buffers fragments verbatim. -/
theorem handle_stdout_keeps_control_chars :
    pyContainsChar
        (handle_stdout ⟨"", ""⟩ "a\x08b\rc\nd").cached_stdout '\r' = true ∧
    pyContainsChar
        (handle_stdout ⟨"", ""⟩ "a\x08b\rc\nd").cached_stdout '\x08' = true ∧
    pyContainsChar
        (handle_stdout ⟨"", ""⟩ "a\x08b\rc\nd").stdout '\r' = true ∧
    pyContainsChar
        (handle_stdout ⟨"", ""⟩ "a\x08b\rc\nd").stdout '\x08' = true := by
  refine ⟨?_, ?_, ?_, ?_⟩ <;> decide

/-- C5 as amended: backspaces and carriage returns are not stripped
before buffering but at render time: `str_to_html` hands the external
ANSI converter a text purged of both control characters, while the
cached buffer keeps the raw fragment. -/
theorem control_chars_stripped_at_render :
    (∀ (conv : String → String) (text : String),
      ∃ t, str_to_html conv text
            = (conv t).replace "background-color: #000000"
                "background-color: transparent" ∧
          pyContainsChar t '\x08' = false ∧
          pyContainsChar t '\r' = false) ∧
    (handle_stdout ⟨"", ""⟩ "a\x08b\rc\nd").cached_stdout
        = "a\x08b\rc\n" := by
  refine ⟨fun conv text => ?_, by decide⟩
  refine ⟨stripChar '\r' (stripChar '\x08' text), rfl, ?_, ?_⟩
  · exact pyContainsChar_stripChar_other '\r' '\x08' _
      (pyContainsChar_stripChar_self '\x08' text)
  · exact pyContainsChar_stripChar_self '\r' _

/-! ### Serialization theorems -/

theorem deserialize_serialize_block (b : Block) :
    deserialize_block (serialize_block b) = .ok b := by
  obtain ⟨bid, title, sockets, payload⟩ := b
  cases payload <;> rfl

theorem deserialize_blocks_serialize (l : List Block) :
    deserialize_blocks (l.map serialize_block) = Except.ok l := by
  induction l with
  | nil => rfl
  | cons b bs ih =>
      simp [deserialize_blocks, deserialize_serialize_block, ih]

/-- Demonstration document for the serialization witnesses: a Code
block and a Markdown block joined by one execution-flow edge. -/
def demoDoc : GraphDoc :=
  { blocks := [
      { id := 0, title := "a",
        sockets := [⟨1, .input, .exe⟩, ⟨2, .output, .exe⟩],
        payload := .code "x = 1" "1" },
      { id := 3, title := "b",
        sockets := [⟨4, .input, .exe⟩, ⟨5, .output, .exe⟩],
        payload := .markdown "note" } ],
    edges := [⟨0, 2, 3, 4⟩] }

/-- C2: for every well-formed graph document, deserializing the
serialization (ids restored) reproduces the document exactly: the
same block ids, socket ids, edges and field values, including
`source` and `stdout` of the Code blocks. -/
theorem deserialize_serialize_roundtrip (d : GraphDoc)
    (hwf : WellFormed d) :
    deserialize_doc (serialize_doc d) = .ok d := by
  unfold WellFormed at hwf
  simp only [deserialize_doc, serialize_doc, deserialize_blocks_serialize]
  rw [if_pos hwf]

/-- Witness for C2 at a concrete two-block document. -/
theorem deserialize_serialize_roundtrip_witness :
    WellFormed demoDoc ∧
    deserialize_doc (serialize_doc demoDoc) = .ok demoDoc :=
  ⟨by decide, deserialize_serialize_roundtrip demoDoc (by decide)⟩

/-- C8: deserializing a Code block document that lacks the optional
`source` key does not fail: `complete_with_default` first fills
`source` with the documented default `""`, and the restored block
carries that default (an absent `stdout` likewise stays at the
initial `""`). -/
theorem deserialize_missing_source_defaults (sb : SerializedBlock)
    (htype : sb.block_type = "code") (hsrc : sb.source = none) :
    (complete_with_default sb).source = some "" ∧
    deserialize_block sb
      = .ok { id := sb.id, title := sb.title, sockets := sb.sockets,
              payload := .code "" (sb.stdout.getD "") } := by
  constructor
  · simp [complete_with_default, htype, hsrc]
  · simp [deserialize_block, complete_with_default, htype, hsrc]

/-- Witness for C8: a serialized Code block with no `source` (and no
`stdout`) deserializes to a block with empty source. -/
theorem deserialize_missing_source_defaults_witness :
    (SerializedBlock.mk 7 "code" "t" [] none none none).block_type
        = "code" ∧
    (SerializedBlock.mk 7 "code" "t" [] none none none).source = none ∧
    ((complete_with_default
        (SerializedBlock.mk 7 "code" "t" [] none none none)).source
          = some "" ∧
      deserialize_block (SerializedBlock.mk 7 "code" "t" [] none none none)
        = .ok { id := 7, title := "t", sockets := [],
                payload := .code "" ((none : Option String).getD "") }) :=
  ⟨by decide, by decide,
    deserialize_missing_source_defaults
      (SerializedBlock.mk 7 "code" "t" [] none none none)
      (by decide) (by decide)⟩

/-! ## Notebook conversion (`from_ipynb_conversion`, modelled)

The conversion module itself is not among the sources at hand — only
its unit tests are — so `is_title` and `ipynb_to_ipyg` are modelled
from the spec (§4.2) and checked against the test expectations. -/

/-- Kind of a notebook cell. -/
inductive CellKind
  | code
  | markdown
deriving DecidableEq, Repr

/-- A notebook cell: a kind tag and its source content. -/
structure Cell where
  cell_type : CellKind
  source : String
deriving DecidableEq, Repr

/-- Modelled from the spec: the fixed length threshold of the title
heuristic ("a short phrase, not a sentence or heading"); the unit
tests accept an 18-character title and reject a 119-character one. -/
def TITLE_MAX_LENGTH : Nat := 60

/-- Modelled from the spec: `from_ipynb_conversion.is_title` (the
conversion module is not among the sources at hand).  A markdown
cell text is a usable block title iff it is non-empty, holds no
newline, does not start with the heading marker `#`, and is no longer
than the fixed threshold. -/
def is_title (text : String) : Bool :=
  text != "" && !pyContainsChar text '\n' && !pyStartswith text "#" &&
    decide (text.length ≤ TITLE_MAX_LENGTH)

/-- Modelled from the spec: conversion of the notebook cell at
position `i` into a block.  Every block and socket receives a freshly
allocated id (blocks `3i`, input `exe` socket `3i + 1`, output `exe`
socket `3i + 2`); code cells become Code blocks carrying the cell
source, markdown cells become Markdown blocks.  Title inference only
fills the `title` field and is settled separately on `is_title`. -/
def cellToBlock (i : Nat) (c : Cell) : Block :=
  { id := 3 * i, title := "",
    sockets := [⟨3 * i + 1, .input, .exe⟩, ⟨3 * i + 2, .output, .exe⟩],
    payload :=
      match c.cell_type with
      | .code => .code c.source ""
      | .markdown => .markdown c.source }

/-- Modelled from the spec: the sequential-linking edge from the
output `exe` socket of the block of cell `i` to the input `exe`
socket of the block of cell `i + 1`. -/
def linkEdge (i : Nat) : Edge :=
  { source_block := 3 * i, source_socket := 3 * i + 2,
    dest_block := 3 * (i + 1), dest_socket := 3 * (i + 1) + 1 }

/-- Modelled from the spec: `from_ipynb_conversion.ipynb_to_ipyg`.
Each cell becomes one block with fresh ids, and consecutive cells are
linked by execution-flow edges in document order; the empty notebook
yields the empty document. -/
def ipynb_to_ipyg (cells : List Cell) : GraphDoc :=
  { blocks := cells.enum.map (fun p => cellToBlock p.1 p.2),
    edges := (List.range (cells.length - 1)).map linkEdge }

/-! ### Conversion theorems -/

theorem enum_map_fst_comp {α β : Type} (l : List α) (g : Nat → β) :
    l.enum.map (fun p => g p.1) = (List.range l.length).map g := by
  rw [← List.enum_map_fst l, List.map_map]
  rfl

theorem enum_flatMap_fst_comp {α β : Type} (l : List α) (g : Nat → List β) :
    l.enum.flatMap (fun p => g p.1) = (List.range l.length).flatMap g := by
  rw [← List.enum_map_fst l, List.flatMap_map]

theorem conv_block_ids (cells : List Cell) :
    (ipynb_to_ipyg cells).blocks.map Block.id
      = (List.range cells.length).map (fun i => 3 * i) := by
  simp only [ipynb_to_ipyg, List.map_map]
  exact enum_map_fst_comp cells (fun i => 3 * i)

theorem conv_socket_ids (cells : List Cell) :
    (ipynb_to_ipyg cells).blocks.flatMap (fun b => b.sockets.map Socket.id)
      = (List.range cells.length).flatMap
          (fun i => [3 * i + 1, 3 * i + 2]) := by
  simp only [ipynb_to_ipyg, List.flatMap_map]
  exact enum_flatMap_fst_comp cells (fun i => [3 * i + 1, 3 * i + 2])

/-- C6: the title heuristic accepts a markdown text exactly when it
is non-empty, newline-free, not a `#` heading and within the length
threshold; any longer text is rejected, and the unit-test examples
classify as the tests expect. -/
theorem is_title_classification :
    (∀ t : String, is_title t = true ↔
      (t ≠ "" ∧ pyContainsChar t '\n' = false ∧
        pyStartswith t "#" = false ∧ t.length ≤ TITLE_MAX_LENGTH)) ∧
    (∀ t : String, TITLE_MAX_LENGTH < t.length → is_title t = false) ∧
    is_title "" = false ∧
    is_title "Data Preprocessing" = true ∧
    is_title "# Report" = false ∧
    is_title "New line \n Next line" = false ∧
    is_title "This is a very very very very very very very very very very very very very very very very very very long explanation" = false := by
  refine ⟨fun t => ?_, fun t h => ?_, by decide, by decide, by decide,
    by decide, by decide⟩
  · simp [is_title, Bool.and_eq_true, bne_iff_ne, Bool.not_eq_true',
      decide_eq_true_iff, and_assoc]
  · have hd : decide (t.length ≤ TITLE_MAX_LENGTH) = false :=
      decide_eq_false (by omega)
    simp [is_title, hd]

/-- Witness for C6: the 119-character test sentence exceeds the
threshold and is rejected. -/
theorem is_title_classification_witness :
    TITLE_MAX_LENGTH <
      ("This is a very very very very very very very very very very very very very very very very very very long explanation" : String).length ∧
    is_title "This is a very very very very very very very very very very very very very very very very very very long explanation" = false :=
  ⟨by decide, is_title_classification.2.1 _ (by decide)⟩

/-- C7: in every converted notebook document, block ids are pairwise
distinct, socket ids are pairwise distinct across the whole document,
and each of the four ids referenced by every edge names an existing
block or socket. -/
theorem conversion_ids_coherent (cells : List Cell) :
    ((ipynb_to_ipyg cells).blocks.map Block.id).Nodup ∧
    ((ipynb_to_ipyg cells).blocks.flatMap
        (fun b => b.sockets.map Socket.id)).Nodup ∧
    ∀ e ∈ (ipynb_to_ipyg cells).edges,
      e.source_block ∈ (ipynb_to_ipyg cells).blocks.map Block.id ∧
      e.dest_block ∈ (ipynb_to_ipyg cells).blocks.map Block.id ∧
      e.source_socket ∈ (ipynb_to_ipyg cells).blocks.flatMap
          (fun b => b.sockets.map Socket.id) ∧
      e.dest_socket ∈ (ipynb_to_ipyg cells).blocks.flatMap
          (fun b => b.sockets.map Socket.id) := by
  refine ⟨?_, ?_, ?_⟩
  · rw [conv_block_ids]
    exact List.Nodup.map (fun a b hab => by omega) (List.nodup_range _)
  · rw [conv_socket_ids]
    rw [List.nodup_flatMap]
    constructor
    · intro i _
      simp only [List.nodup_cons, List.mem_singleton, List.not_mem_nil,
        not_false_iff, List.nodup_nil, and_true]
      omega
    · rw [List.pairwise_iff_getElem]
      intro i j hi hj hij
      simp only [List.getElem_range]
      intro a ha hb
      simp only [Function.onFun, List.mem_cons, List.mem_singleton,
        List.not_mem_nil, or_false] at ha hb
      omega
  · intro e he
    simp only [ipynb_to_ipyg, List.mem_map] at he
    obtain ⟨i, hi, rfl⟩ := he
    have hin : i < cells.length - 1 := List.mem_range.mp hi
    rw [conv_block_ids, conv_socket_ids]
    refine ⟨?_, ?_, ?_, ?_⟩
    · exact List.mem_map.mpr ⟨i, List.mem_range.mpr (by omega), rfl⟩
    · exact List.mem_map.mpr ⟨i + 1, List.mem_range.mpr (by omega), rfl⟩
    · exact List.mem_flatMap.mpr
        ⟨i, List.mem_range.mpr (by omega), by simp [linkEdge]⟩
    · exact List.mem_flatMap.mpr
        ⟨i + 1, List.mem_range.mpr (by omega), by simp [linkEdge]⟩

/-- Demonstration notebook for the conversion witness: a markdown
cell followed by a code cell. -/
def demoCells : List Cell :=
  [⟨.markdown, "Title"⟩, ⟨.code, "x = 1"⟩]

/-- Witness for C7 at a concrete two-cell notebook: its single
sequential-linking edge references existing ids. -/
theorem conversion_ids_coherent_witness :
    linkEdge 0 ∈ (ipynb_to_ipyg demoCells).edges ∧
    ((linkEdge 0).source_block
        ∈ (ipynb_to_ipyg demoCells).blocks.map Block.id ∧
      (linkEdge 0).dest_block
        ∈ (ipynb_to_ipyg demoCells).blocks.map Block.id ∧
      (linkEdge 0).source_socket
        ∈ (ipynb_to_ipyg demoCells).blocks.flatMap
            (fun b => b.sockets.map Socket.id) ∧
      (linkEdge 0).dest_socket
        ∈ (ipynb_to_ipyg demoCells).blocks.flatMap
            (fun b => b.sockets.map Socket.id)) :=
  ⟨by decide,
    (conversion_ids_coherent demoCells).2.2 (linkEdge 0) (by decide)⟩

end PyFlow
